import Mathlib

/-!
# SimNations Backend — Economic Update Job: verification development

Shallow embedding of the Economic Update Job orchestration core and of the
HTTP boundary in `server.js`.

The repository's visible source is `server.js` (the web boundary) and
`package.json`.  The job controller / batch executor module
(`src/infrastructure/jobs/economic-update-job`) is required by `server.js`
but its file is not part of the visible source, so those components are
modelled from the specification text (each such definition carries a
`Modelled from the spec:` doc comment).  Everything about the HTTP routes,
boot sequence and signal handlers is embedded directly from `server.js`.
-/

namespace SimNations

/-! ## Data model -/

/-- Modelled from the spec: lifecycle state of the Job Controller
(`state ∈ {STOPPED, IDLE, RUNNING}`); the file
`src/infrastructure/jobs/economic-update-job.js` is not in the visible
source. -/
inductive JobState
  | STOPPED
  | IDLE
  | RUNNING
  deriving DecidableEq, Repr

/-- Modelled from the spec: outcome of the last pass
(`SUCCESS / PARTIAL_FAILURE / FAILURE / null if never run`). -/
inductive RunOutcome
  | SUCCESS
  | PARTIAL_FAILURE
  | FAILURE
  deriving DecidableEq, Repr

/-- Modelled from the spec: a simulated country ("state") owned by the
State Repository: an identifier plus economic attributes (kept opaque as an
integer, since the spec does not define the economic formulas). -/
structure SimulatedState where
  stateId : Nat
  econAttrs : Int
  deriving DecidableEq, Repr

/-- Modelled from the spec: per-item failure record
`FailureDetail{stateId, reason}`. -/
structure FailureDetail where
  stateId : Nat
  reason : String
  deriving DecidableEq, Repr

/-- Modelled from the spec: the per-pass record `RunResult` with counts and
the ordered sequence of failure details. -/
structure RunResult where
  processedCount : Nat
  failedCount : Nat
  failures : List FailureDetail
  deriving DecidableEq, Repr

/-- Modelled from the spec: the immutable `JobStatus` snapshot produced by
`getStatus()`. -/
structure JobStatus where
  state : JobState
  lastRunOutcome : Option RunOutcome
  lastRunProcessedCount : Nat
  lastRunFailedCount : Nat
  nextScheduledAt : Option Nat
  scheduleExpression : String
  deriving DecidableEq, Repr

/-! ## Batch Executor

Modelled from the spec (§4.2): one pass fetches all eligible states, then
recomputes and persists each state independently, catching per-item
failures as `FailureDetail`s and continuing.  The fetch step and the
per-item recompute-and-persist step are parameters (the State Repository is
an external collaborator): a per-item step either returns the updated state
or fails with a reason string. -/

/-- Modelled from the spec: accumulated result of processing the fetched
sequence: number of successfully processed states, ordered failure details,
and the ids of the states whose updates were persisted (in fetch order). -/
structure PassAcc where
  processed : Nat
  failures : List FailureDetail
  persisted : List Nat
  deriving DecidableEq, Repr

/-- Modelled from the spec: process the fetched states in fetch order; a
failure on one state is caught, recorded as a `FailureDetail`, and
processing continues with the next state. -/
def runItems (step : SimulatedState → Except String SimulatedState) :
    List SimulatedState → PassAcc
  | [] => ⟨0, [], []⟩
  | s :: rest =>
    let acc := runItems step rest
    match step s with
    | Except.ok _ => ⟨acc.processed + 1, acc.failures, s.stateId :: acc.persisted⟩
    | Except.error msg => ⟨acc.processed, ⟨s.stateId, msg⟩ :: acc.failures, acc.persisted⟩

/-- Modelled from the spec: result of one whole pass.  If fetching the set
of eligible states itself fails the whole pass fails with a fetch-level
error and nothing is processed; otherwise the pass completes with a
`RunResult` and the list of persisted state ids. -/
inductive PassResult
  | fetchFailure (msg : String)
  | completed (r : RunResult) (persisted : List Nat)
  deriving DecidableEq, Repr

/-- Modelled from the spec: run one full pass given the fetch outcome and
the per-item step. -/
def runPass (fetch : Except String (List SimulatedState))
    (step : SimulatedState → Except String SimulatedState) : PassResult :=
  match fetch with
  | Except.error msg => PassResult.fetchFailure msg
  | Except.ok states =>
    let acc := runItems step states
    PassResult.completed ⟨acc.processed, acc.failures.length, acc.failures⟩ acc.persisted

/-- The state ids persisted by a pass (a fetch-level failure persists
nothing). -/
def PassResult.persistedIds : PassResult → List Nat
  | PassResult.fetchFailure _ => []
  | PassResult.completed _ p => p

/-- Whether a per-item step succeeded. -/
def stepOk (step : SimulatedState → Except String SimulatedState)
    (s : SimulatedState) : Bool :=
  match step s with
  | Except.ok _ => true
  | Except.error _ => false

/-! ## Job Controller

Modelled from the spec (§4.1, §5): the controller owns the lifecycle state
machine `STOPPED → IDLE → RUNNING → IDLE`, admits at most one pass at a
time (the admission check-and-transition is an atomic critical section),
drops ticks that arrive while RUNNING, rejects `executeManual()` while
RUNNING or STOPPED, and folds each `RunResult`/pass failure into its status
fields.  `activePasses` counts the passes currently in flight, so that the
at-most-one-pass invariant can be stated.  `stopRequested` records a
`stop()` issued while a pass is RUNNING: the pass runs to completion and
the controller becomes STOPPED only when it exits. -/
structure Controller where
  state : JobState
  activePasses : Nat
  stopRequested : Bool
  lastRunOutcome : Option RunOutcome
  lastRunProcessedCount : Nat
  lastRunFailedCount : Nat
  nextScheduledAt : Option Nat
  scheduleExpression : String
  deriving DecidableEq, Repr

/-- Modelled from the spec: a freshly constructed controller: state
STOPPED, no run history, no scheduled fire time. -/
def Controller.init : Controller :=
  ⟨JobState.STOPPED, 0, false, none, 0, 0, none, "0 * * * *"⟩

/-- Modelled from the spec: `getStatus()` returns the current immutable
`JobStatus` snapshot; never blocks, never fails. -/
def getStatus (c : Controller) : JobStatus :=
  ⟨c.state, c.lastRunOutcome, c.lastRunProcessedCount, c.lastRunFailedCount,
    c.nextScheduledAt, c.scheduleExpression⟩

/-- Modelled from the spec: `start()` transitions STOPPED → IDLE, arms the
trigger and stores `nextScheduledAt` (the next fire time, supplied by the
opaque Schedule Provider as `next`); idempotent on an already-started
controller. -/
def doStart (next : Nat) (c : Controller) : Controller :=
  if c.state = JobState.STOPPED then
    { c with state := JobState.IDLE, nextScheduledAt := some next,
             stopRequested := false }
  else c

/-- Modelled from the spec: `stop()` disarms the trigger and clears
`nextScheduledAt`; it does not abort an in-flight pass — while RUNNING it
only closes future admission, and the controller becomes STOPPED once the
pass exits. -/
def doStop (c : Controller) : Controller :=
  if c.state = JobState.RUNNING then
    { c with stopRequested := true, nextScheduledAt := none }
  else
    { c with state := JobState.STOPPED, nextScheduledAt := none }

/-- Modelled from the spec: admission (IDLE → RUNNING): a pass begins. -/
def beginPass (c : Controller) : Controller :=
  { c with state := JobState.RUNNING, activePasses := c.activePasses + 1 }

/-- Modelled from the spec: the scheduled tick handler.  If state is
RUNNING the tick is dropped (logged, not queued); if STOPPED no pass is
admitted; only from IDLE does a pass begin. -/
def doTick (c : Controller) : Controller :=
  if c.state = JobState.IDLE then beginPass c else c

/-- Modelled from the spec: the error taxonomy of `executeManual()` (plus
the fetch-level pass failure, which the synchronous manual path surfaces to
its caller). -/
inductive ManualError
  | AlreadyRunning
  | NotInitialized
  | FetchError (msg : String)
  deriving DecidableEq, Repr

/-- Modelled from the spec: the caller-visible message of a manual
execution error (surfaced as `error.message` at the HTTP boundary). -/
def ManualError.message : ManualError → String
  | ManualError.AlreadyRunning => "Job already running"
  | ManualError.NotInitialized => "Job not initialized"
  | ManualError.FetchError msg => msg

/-- Modelled from the spec: the admission step of `executeManual()`: fails
with `AlreadyRunning` if state is RUNNING (no pass is started, the
controller is unchanged), fails with `NotInitialized`/`Stopped` if state is
STOPPED, and otherwise begins a pass. -/
def executeManualAdmit (c : Controller) : Except ManualError Controller :=
  match c.state with
  | JobState.RUNNING => Except.error ManualError.AlreadyRunning
  | JobState.STOPPED => Except.error ManualError.NotInitialized
  | JobState.IDLE => Except.ok (beginPass c)

/-- Modelled from the spec: fold a finished pass into the status.  Outcome
is FAILURE for a fetch-level failure (with zero counts), SUCCESS when no
item failed and PARTIAL_FAILURE otherwise; the controller returns to IDLE,
or to STOPPED when `stop()` was called during the pass.  Guarded on
RUNNING: a completion can only happen for an admitted pass. -/
def passEndStep (c : Controller) (p : PassResult) : Controller :=
  if c.state = JobState.RUNNING then
    let folded :=
      match p with
      | PassResult.fetchFailure _ =>
        { c with lastRunOutcome := some RunOutcome.FAILURE,
                 lastRunProcessedCount := 0, lastRunFailedCount := 0 }
      | PassResult.completed r _ =>
        { c with
            lastRunOutcome := some (if r.failedCount = 0 then RunOutcome.SUCCESS
                                    else RunOutcome.PARTIAL_FAILURE),
            lastRunProcessedCount := r.processedCount,
            lastRunFailedCount := r.failedCount }
    { folded with
        activePasses := c.activePasses - 1,
        state := if c.stopRequested then JobState.STOPPED else JobState.IDLE,
        stopRequested := false }
  else c

/-- Modelled from the spec: `executeManual()` run synchronously from the
caller's perspective: admission, then the whole pass, then the fold into
status; on success the `RunResult` is returned, a fetch-level pass failure
is surfaced to the caller as an error. -/
def executeManualFull (c : Controller) (p : PassResult) :
    Except ManualError (RunResult × Controller) :=
  match executeManualAdmit c with
  | Except.error e => Except.error e
  | Except.ok c1 =>
    let c2 := passEndStep c1 p
    match p with
    | PassResult.fetchFailure msg => Except.error (ManualError.FetchError msg)
    | PassResult.completed r _ => Except.ok (r, c2)

/-! ### Event traces

Admission events (scheduled ticks and manual calls) and pass completions,
in any interleaving, drive the controller; this is the shape under which
the at-most-one-pass invariant is stated. -/

/-- An event hitting the Job Controller: lifecycle calls, a scheduled tick,
a manual-execution attempt (its admission step), or the completion of an
in-flight pass. -/
inductive Event
  | startE (next : Nat)
  | stopE
  | tick
  | manual
  | passEnd (p : PassResult)
  deriving Repr

/-- One controller step per event; a rejected manual call leaves the
controller unchanged. -/
def stepEvent (c : Controller) : Event → Controller
  | Event.startE next => doStart next c
  | Event.stopE => doStop c
  | Event.tick => doTick c
  | Event.manual =>
    match executeManualAdmit c with
    | Except.error _ => c
    | Except.ok c1 => c1
  | Event.passEnd p => passEndStep c p

/-- Run a sequence of events from a freshly constructed controller. -/
def runEvents (evs : List Event) : Controller :=
  evs.foldl stepEvent Controller.init

/-- The reachability invariant tying the lifecycle state to the number of
in-flight passes. -/
def ControllerInv (c : Controller) : Prop :=
  c.activePasses = (if c.state = JobState.RUNNING then 1 else 0)

/-! ## HTTP boundary (`server.js`)

Embedded from the source.  `server.js` registers, in order: the `/health`
GET route, the `/admin/economic-job/status` GET route, the
`/admin/economic-job/execute` POST route — registered only when
`process.env.NODE_ENV === 'development'` — the five `/api/...` routers
(external collaborators), and a catch-all 404 handler.  `process.env.NODE_ENV`
is modelled as an `Option String` (`none` = unset). -/

/-- HTTP methods used by the routes of `server.js`. -/
inductive Method
  | GET
  | POST
  deriving DecidableEq, Repr

/-- An incoming request, as far as routing in `server.js` depends on it. -/
structure Request where
  method : Method
  path : String
  deriving DecidableEq, Repr

/-- The `economic_job_status` field of the `/health` body: either the
controller's `getStatus()` output, or the literal string
`'not_initialized'` (`economicJob ? economicJob.getStatus() : 'not_initialized'`). -/
inductive EconField
  | statusOf (s : JobStatus)
  | literal (s : String)
  deriving DecidableEq, Repr

/-- The payload carried in a response's `data` field. -/
inductive RespData
  | runResult (r : RunResult)
  | jobStatus (s : JobStatus)
  deriving DecidableEq, Repr

/-- A JSON response of `server.js`, as far as the routes populate it. -/
structure Response where
  statusCode : Nat
  success : Bool
  message : Option String := none
  payload : Option RespData := none
  errorMessage : Option String := none
  environment : Option String := none
  econJobStatus : Option EconField := none
  deriving DecidableEq, Repr

/-- The `/health` handler (`server.js` lines 60-68): always a 200 JSON body
with `success:true`, the environment (`process.env.NODE_ENV || 'development'`)
and `economic_job_status` from the controller or the literal
`'not_initialized'`. -/
def healthHandler (nodeEnv : Option String) (economicJob : Option Controller) :
    Response :=
  { statusCode := 200, success := true,
    message := some "SimNations Backend está funcionando!",
    environment := some (nodeEnv.getD "development"),
    econJobStatus := some (match economicJob with
      | some c => EconField.statusOf (getStatus c)
      | none => EconField.literal "not_initialized") }

/-- The `/admin/economic-job/status` handler (`server.js` lines 71-84):
503 `{success:false}` when the controller was never constructed, else 200
`{success:true, data: getStatus()}`. -/
def statusRouteHandler (economicJob : Option Controller) : Response :=
  match economicJob with
  | none =>
    { statusCode := 503, success := false,
      message := some "Job econômica não inicializada" }
  | some c =>
    { statusCode := 200, success := true,
      payload := some (RespData.jobStatus (getStatus c)) }

/-- The `/admin/economic-job/execute` handler (`server.js` lines 88-110):
503 when the controller was never constructed; otherwise it awaits
`executeManual()` — 200 `{success:true, data: result}` on success, and on
any thrown error a 500 with `error: error.message`.  The pass the executor
would run is supplied as `p`. -/
def executeRouteHandler (economicJob : Option Controller) (p : PassResult) :
    Response :=
  match economicJob with
  | none =>
    { statusCode := 503, success := false,
      message := some "Job econômica não inicializada" }
  | some c =>
    match executeManualFull c p with
    | Except.ok (r, _) =>
      { statusCode := 200, success := true,
        payload := some (RespData.runResult r) }
    | Except.error e =>
      { statusCode := 500, success := false,
        message := some "Erro ao executar job manualmente",
        errorMessage := some e.message }

/-- The catch-all handler (`server.js` lines 124-130): 404
`{success:false, message:'Rota não encontrada'}`. -/
def notFoundHandler : Response :=
  { statusCode := 404, success := false,
    message := some "Rota não encontrada" }

/-- Character-level string prefix test (kept executable down to the
kernel). -/
def beginsWithChars : List Char → List Char → Bool
  | [], _ => true
  | _ :: _, [] => false
  | p :: ps, c :: cs => (p = c) && beginsWithChars ps cs

/-- Whether `pre` is a prefix of the path `s`. -/
def strBegins (pre s : String) : Bool :=
  beginsWithChars pre.toList s.toList

/-- Whether a path is handled by one of the five mounted `/api/...` routers
(external collaborators, out of scope). -/
def isApiPath (path : String) : Bool :=
  strBegins "/api/auth" path || strBegins "/api/user" path ||
  strBegins "/api/quiz" path || strBegins "/api/state" path ||
  strBegins "/api/events" path

/-- Request dispatch of `server.js`, in registration order: `/health`,
`/admin/economic-job/status`, then — only when
`process.env.NODE_ENV === 'development'` — the execute route, then the
`/api` routers (handled by the external `apiRoutes` collaborator), then the
404 catch-all. -/
def appHandle (nodeEnv : Option String) (economicJob : Option Controller)
    (p : PassResult) (apiRoutes : Request → Response) (req : Request) :
    Response :=
  if req.method = Method.GET ∧ req.path = "/health" then
    healthHandler nodeEnv economicJob
  else if req.method = Method.GET ∧ req.path = "/admin/economic-job/status" then
    statusRouteHandler economicJob
  else if nodeEnv = some "development" ∧ req.method = Method.POST ∧
      req.path = "/admin/economic-job/execute" then
    executeRouteHandler economicJob p
  else if isApiPath req.path then
    apiRoutes req
  else
    notFoundHandler

/-! ## Process lifecycle (`server.js`): boot and signal handlers -/

/-- An externally observable action of the boot sequence and of the signal
handlers. -/
inductive ProcAction
  | constructJob
  | jobStart
  | jobStop
  | listen
  | exitProc (code : Nat)
  deriving DecidableEq, Repr

/-- The `startServer` boot sequence (`server.js` lines 133-166): first the
database connectivity test — on failure the process exits with code 1
before anything else; then, unless `process.env.NODE_ENV === 'test'`, the
job controller is constructed and `start()` is called; then the server
listens. -/
def startServer (nodeEnv : Option String) (connOk : Bool) : List ProcAction :=
  if connOk then
    (if nodeEnv ≠ some "test" then
      [ProcAction.constructJob, ProcAction.jobStart]
     else []) ++ [ProcAction.listen]
  else
    [ProcAction.exitProc 1]

/-- The SIGTERM/SIGINT handlers (`server.js` lines 179-193): call `stop()`
on the controller when one was constructed, then exit with code 0. -/
def signalHandler (economicJob : Option Controller) : List ProcAction :=
  (match economicJob with
   | some _ => [ProcAction.jobStop]
   | none => []) ++ [ProcAction.exitProc 0]

/-! ## System view for pass-level error propagation

Modelled from the spec (§7): pass-level errors are recorded in status and
logged; they never crash the controller or the hosting process.  The system
state pairs the controller with whether the process is alive. -/

/-- Modelled from the spec: controller plus process liveness. -/
structure SysState where
  ctrl : Controller
  alive : Bool
  deriving DecidableEq, Repr

/-- Modelled from the spec: a scheduled tick running a whole pass: when the
tick is admitted the pass runs and its result — including a pass-level
failure — is folded into the status; any pass-level error is caught inside
the controller, so the process stays alive. -/
def tickFull (s : SysState) (p : PassResult) : SysState :=
  if s.ctrl.state = JobState.IDLE then
    { s with ctrl := passEndStep (beginPass s.ctrl) p }
  else s

/-- The failure detail a per-item step produces on a given state, if any. -/
def failDetailOf (step : SimulatedState → Except String SimulatedState)
    (s : SimulatedState) : Option FailureDetail :=
  match step s with
  | Except.ok _ => none
  | Except.error msg => some ⟨s.stateId, msg⟩

/-- A concrete fetched sequence of five states. -/
def fiveStates : List SimulatedState :=
  [⟨1, 0⟩, ⟨2, 0⟩, ⟨3, 0⟩, ⟨4, 0⟩, ⟨5, 0⟩]

/-- A per-item step that fails exactly on state #3. -/
def failOnThree (s : SimulatedState) : Except String SimulatedState :=
  if s.stateId = 3 then Except.error "persist failed" else Except.ok s

/-! ## Theorems -/

theorem runItems_counts (step : SimulatedState → Except String SimulatedState)
    (states : List SimulatedState) :
    (runItems step states).processed + (runItems step states).failures.length =
      states.length := by
  induction states with
  | nil => simp [runItems]
  | cons s rest ih =>
    cases h : step s <;> simp [runItems, h] <;> omega

theorem runItems_failures (step : SimulatedState → Except String SimulatedState)
    (states : List SimulatedState) :
    (runItems step states).failures = states.filterMap (failDetailOf step) := by
  induction states with
  | nil => simp [runItems]
  | cons s rest ih =>
    cases h : step s <;> simp [runItems, failDetailOf, h, ih]

theorem runItems_persisted (step : SimulatedState → Except String SimulatedState)
    (states : List SimulatedState) :
    (runItems step states).persisted =
      (states.filter (fun s => stepOk step s)).map SimulatedState.stateId := by
  induction states with
  | nil => simp [runItems]
  | cons s rest ih =>
    cases h : step s <;> simp [runItems, stepOk, h, ih]

/-- Claim C2: for every pass executed by the Batch Executor, the RunResult
it returns satisfies processedCount + failedCount equal to the number of
states fetched for that pass, for every combination of per-item failures
(the per-item step is universally quantified, covering zero, all, or mixed
failures). -/
theorem runResult_counts_match_fetched (states : List SimulatedState)
    (step : SimulatedState → Except String SimulatedState) :
    ∃ r persisted,
      runPass (Except.ok states) step = PassResult.completed r persisted ∧
      r.processedCount + r.failedCount = states.length := by
  refine ⟨_, _, rfl, ?_⟩
  exact runItems_counts step states

/-- Claim C3: a failure while recomputing or persisting one state is
caught, recorded as a FailureDetail, and does not prevent any other state
of the same pass from being processed: the recorded failures are exactly
the failure details of the failing states, every succeeding state's update
is persisted regardless of other failures, and on a concrete fetched
sequence of 5 states where exactly state #3 fails, the pass completes with
processedCount = 4, failedCount = 1 and the single failure recorded. -/
theorem per_item_fault_isolation :
    (∀ (step : SimulatedState → Except String SimulatedState)
       (states : List SimulatedState),
       (runItems step states).failures = states.filterMap (failDetailOf step) ∧
       (runItems step states).persisted =
         (states.filter (fun s => stepOk step s)).map SimulatedState.stateId) ∧
    runPass (Except.ok fiveStates) failOnThree =
      PassResult.completed ⟨4, 1, [⟨3, "persist failed"⟩]⟩ [1, 2, 4, 5] := by
  refine ⟨fun step states => ⟨runItems_failures step states,
    runItems_persisted step states⟩, ?_⟩
  decide

theorem controllerInv_step (c : Controller) (e : Event) (h : ControllerInv c) :
    ControllerInv (stepEvent c e) := by
  obtain ⟨st, ap, sr, o, pc, fc, ns, se⟩ := c
  unfold ControllerInv at h ⊢
  cases e with
  | startE next =>
    cases st <;> simp_all [stepEvent, doStart]
  | stopE =>
    cases st <;> simp_all [stepEvent, doStop]
  | tick =>
    cases st <;> simp_all [stepEvent, doTick, beginPass]
  | manual =>
    cases st <;> simp_all [stepEvent, executeManualAdmit, beginPass]
  | passEnd p =>
    cases st <;> cases p <;> cases sr <;> simp_all [stepEvent, passEndStep]

theorem controllerInv_foldl (evs : List Event) :
    ∀ c : Controller, ControllerInv c → ControllerInv (evs.foldl stepEvent c) := by
  induction evs with
  | nil => exact fun c h => h
  | cons e rest ih => exact fun c h => ih _ (controllerInv_step c e h)

theorem controllerInv_run (evs : List Event) : ControllerInv (runEvents evs) := by
  have hinit : ControllerInv Controller.init := by
    unfold ControllerInv Controller.init
    simp
  exact controllerInv_foldl evs Controller.init hinit

/-- Claim C1: over every sequence of scheduled ticks, manual-execution
attempts, lifecycle calls and pass completions, in any interleaving, at
most one pass is in flight at any instant; and whenever the controller's
state is already RUNNING, a tick is dropped (the controller is unchanged,
no pass begins) and a manual call is rejected with AlreadyRunning (the
controller is unchanged). -/
theorem at_most_one_pass_running (evs : List Event) :
    (runEvents evs).activePasses ≤ 1 ∧
    (∀ c : Controller, c.state = JobState.RUNNING →
       doTick c = c ∧
       executeManualAdmit c = Except.error ManualError.AlreadyRunning ∧
       stepEvent c Event.manual = c) := by
  constructor
  · have h := controllerInv_run evs
    unfold ControllerInv at h
    split at h <;> omega
  · intro c hc
    refine ⟨?_, ?_, ?_⟩
    · simp [doTick, hc]
    · simp [executeManualAdmit, hc]
    · simp [stepEvent, executeManualAdmit, hc]

/-- Witness for C1: a concrete trace that starts the job and admits one
pass; in the resulting RUNNING state a tick is a no-op and a manual call is
rejected. -/
theorem at_most_one_pass_running_witness :
    (runEvents [Event.startE 5, Event.tick]).activePasses ≤ 1 ∧
    doTick (runEvents [Event.startE 5, Event.tick]) =
      runEvents [Event.startE 5, Event.tick] ∧
    executeManualAdmit (runEvents [Event.startE 5, Event.tick]) =
      Except.error ManualError.AlreadyRunning := by
  obtain ⟨h1, h2⟩ := at_most_one_pass_running [Event.startE 5, Event.tick]
  obtain ⟨ha, hb, _⟩ := h2 (runEvents [Event.startE 5, Event.tick]) (by decide)
  exact ⟨h1, ha, hb⟩

/-- Claim C4: executeManual() fails with AlreadyRunning whenever the
controller is RUNNING (nothing is folded into the status, so the in-flight
run's result is unaffected and no new pass starts) and with
NotInitialized/Stopped whenever it is STOPPED; and at the HTTP boundary any
such failure yields a 500 response carrying the error message. -/
theorem executeManual_admission_control (c : Controller) (p : PassResult) :
    (c.state = JobState.RUNNING →
       executeManualFull c p = Except.error ManualError.AlreadyRunning) ∧
    (c.state = JobState.STOPPED →
       executeManualFull c p = Except.error ManualError.NotInitialized) ∧
    (∀ e : ManualError, executeManualFull c p = Except.error e →
       executeRouteHandler (some c) p =
         { statusCode := 500, success := false,
           message := some "Erro ao executar job manualmente",
           errorMessage := some e.message }) := by
  refine ⟨?_, ?_, ?_⟩
  · intro h
    simp [executeManualFull, executeManualAdmit, h]
  · intro h
    simp [executeManualFull, executeManualAdmit, h]
  · intro e he
    simp [executeRouteHandler, he]

/-- Witness for C4: on a RUNNING controller the manual call fails with
AlreadyRunning, on a freshly constructed (STOPPED) controller it fails with
NotInitialized, and the HTTP route turns the latter into a 500 carrying the
error message. -/
theorem executeManual_admission_control_witness :
    executeManualFull { Controller.init with state := JobState.RUNNING }
        (PassResult.fetchFailure "db down") =
      Except.error ManualError.AlreadyRunning ∧
    executeManualFull Controller.init (PassResult.fetchFailure "db down") =
      Except.error ManualError.NotInitialized ∧
    executeRouteHandler (some Controller.init) (PassResult.fetchFailure "db down") =
      { statusCode := 500, success := false,
        message := some "Erro ao executar job manualmente",
        errorMessage := some (ManualError.message ManualError.NotInitialized) } := by
  have hstop := (executeManual_admission_control Controller.init
    (PassResult.fetchFailure "db down")).2.1 rfl
  refine ⟨?_, hstop, ?_⟩
  · exact (executeManual_admission_control
      { Controller.init with state := JobState.RUNNING }
      (PassResult.fetchFailure "db down")).1 rfl
  · exact (executeManual_admission_control Controller.init
      (PassResult.fetchFailure "db down")).2.2 ManualError.NotInitialized hstop

/-- Claim C5: when fetching the set of eligible states itself fails, the
whole pass fails with a fetch-level error, no state is persisted, and the
controller records lastRunOutcome = FAILURE with
lastRunProcessedCount = lastRunFailedCount = 0. -/
theorem fetch_failure_aborts_pass (msg : String)
    (step : SimulatedState → Except String SimulatedState) (c : Controller) :
    runPass (Except.error msg) step = PassResult.fetchFailure msg ∧
    (runPass (Except.error msg) step).persistedIds = [] ∧
    (passEndStep (beginPass c) (PassResult.fetchFailure msg)).lastRunOutcome =
      some RunOutcome.FAILURE ∧
    (passEndStep (beginPass c) (PassResult.fetchFailure msg)).lastRunProcessedCount = 0 ∧
    (passEndStep (beginPass c) (PassResult.fetchFailure msg)).lastRunFailedCount = 0 := by
  refine ⟨rfl, rfl, ?_, ?_, ?_⟩ <;> simp [passEndStep, beginPass]

/-- Claim C6: GET /admin/economic-job/status returns 503 with success
false when the job controller has not been constructed, and otherwise 200
with success true and data equal to the controller's getStatus() output. -/
theorem status_route_behaviour (nodeEnv : Option String)
    (economicJob : Option Controller) (p : PassResult)
    (apiRoutes : Request → Response) :
    (economicJob = none →
       appHandle nodeEnv economicJob p apiRoutes
           ⟨Method.GET, "/admin/economic-job/status"⟩ =
         { statusCode := 503, success := false,
           message := some "Job econômica não inicializada" }) ∧
    (∀ c : Controller, economicJob = some c →
       appHandle nodeEnv economicJob p apiRoutes
           ⟨Method.GET, "/admin/economic-job/status"⟩ =
         { statusCode := 200, success := true,
           payload := some (RespData.jobStatus (getStatus c)) }) := by
  constructor
  · intro h
    simp [appHandle, statusRouteHandler, h]
  · intro c h
    simp [appHandle, statusRouteHandler, h]

/-- Witness for C6: the status route answers 503 when no controller
exists, and 200 with the fresh controller's status when one does. -/
theorem status_route_behaviour_witness :
    appHandle none none (PassResult.fetchFailure "x")
        (fun _ => notFoundHandler) ⟨Method.GET, "/admin/economic-job/status"⟩ =
      { statusCode := 503, success := false,
        message := some "Job econômica não inicializada" } ∧
    appHandle none (some Controller.init) (PassResult.fetchFailure "x")
        (fun _ => notFoundHandler) ⟨Method.GET, "/admin/economic-job/status"⟩ =
      { statusCode := 200, success := true,
        payload := some (RespData.jobStatus (getStatus Controller.init)) } := by
  constructor
  · exact (status_route_behaviour none none (PassResult.fetchFailure "x")
      (fun _ => notFoundHandler)).1 rfl
  · exact (status_route_behaviour none (some Controller.init)
      (PassResult.fetchFailure "x") (fun _ => notFoundHandler)).2
      Controller.init rfl

/-- Claim C7: the GET /health response always carries an
economic_job_status field equal to the controller's getStatus() output when
the controller exists and to the literal string "not_initialized"
otherwise; producing the field is total (never throws), and getStatus() on
a freshly constructed controller reports state STOPPED. -/
theorem health_econ_job_status_field (nodeEnv : Option String)
    (economicJob : Option Controller) (p : PassResult)
    (apiRoutes : Request → Response) :
    (appHandle nodeEnv economicJob p apiRoutes
        ⟨Method.GET, "/health"⟩).econJobStatus =
      some (match economicJob with
        | some c => EconField.statusOf (getStatus c)
        | none => EconField.literal "not_initialized") ∧
    (getStatus Controller.init).state = JobState.STOPPED := by
  constructor
  · simp [appHandle, healthHandler]
  · rfl

/-- Claim C9: a pass-level error arising during a scheduled or manual pass
never terminates the job controller or the hosting process: the tick path
leaves the process alive for every pass result, a fetch-level failure is
recorded in the status and the controller returns to IDLE, and the manual
path answers a well-formed 500 response rather than crashing. -/
theorem pass_errors_never_crash (s : SysState) (p : PassResult) (msg : String)
    (hIdle : s.ctrl.state = JobState.IDLE)
    (hsr : s.ctrl.stopRequested = false) :
    (tickFull s p).alive = s.alive ∧
    (tickFull s (PassResult.fetchFailure msg)).ctrl.state = JobState.IDLE ∧
    (tickFull s (PassResult.fetchFailure msg)).ctrl.lastRunOutcome =
      some RunOutcome.FAILURE ∧
    (executeRouteHandler (some s.ctrl)
        (PassResult.fetchFailure msg)).statusCode = 500 := by
  refine ⟨?_, ?_, ?_, ?_⟩
  · unfold tickFull
    split <;> rfl
  · simp [tickFull, hIdle, passEndStep, beginPass, hsr]
  · simp [tickFull, hIdle, passEndStep, beginPass]
  · simp [executeRouteHandler, executeManualFull, executeManualAdmit, hIdle]

/-- Witness for C9: a started (IDLE) controller survives a fetch-level
pass failure: the process stays alive, the controller is back to IDLE with
the failure recorded, and the manual route answers 500. -/
theorem pass_errors_never_crash_witness :
    (tickFull ⟨doStart 5 Controller.init, true⟩
        (PassResult.fetchFailure "db down")).alive = true ∧
    (tickFull ⟨doStart 5 Controller.init, true⟩
        (PassResult.fetchFailure "db down")).ctrl.state = JobState.IDLE ∧
    (tickFull ⟨doStart 5 Controller.init, true⟩
        (PassResult.fetchFailure "db down")).ctrl.lastRunOutcome =
      some RunOutcome.FAILURE ∧
    (executeRouteHandler (some (doStart 5 Controller.init))
        (PassResult.fetchFailure "db down")).statusCode = 500 :=
  pass_errors_never_crash ⟨doStart 5 Controller.init, true⟩
    (PassResult.fetchFailure "db down") "db down" (by decide) (by decide)

/-- Claim C10: when NODE_ENV is not 'development', the execute route is
never registered, so every POST to /admin/economic-job/execute receives the
catch-all 404 with success false, regardless of whether the job controller
exists; in particular not the route's 503 or 500 responses. -/
theorem execute_route_absent_outside_development (nodeEnv : Option String)
    (economicJob : Option Controller) (p : PassResult)
    (apiRoutes : Request → Response)
    (h : nodeEnv ≠ some "development") :
    appHandle nodeEnv economicJob p apiRoutes
        ⟨Method.POST, "/admin/economic-job/execute"⟩ = notFoundHandler ∧
    notFoundHandler.statusCode = 404 ∧
    notFoundHandler.success = false := by
  refine ⟨?_, rfl, rfl⟩
  have hapi : isApiPath "/admin/economic-job/execute" = false := by decide
  simp [appHandle, h, hapi]

/-- Witness for C10: in a production deployment with a constructed
controller, the execute route answers the catch-all 404. -/
theorem execute_route_absent_outside_development_witness :
    appHandle (some "production") (some Controller.init)
        (PassResult.fetchFailure "x") (fun _ => notFoundHandler)
        ⟨Method.POST, "/admin/economic-job/execute"⟩ = notFoundHandler ∧
    notFoundHandler.statusCode = 404 ∧
    notFoundHandler.success = false :=
  execute_route_absent_outside_development (some "production")
    (some Controller.init) (PassResult.fetchFailure "x")
    (fun _ => notFoundHandler) (by decide)

/-- Counterexample to C8 as stated: on a boot outside the test
configuration in which the database connectivity test fails, `startServer`
exits with code 1 before constructing the job controller, so `start()` is
called zero times — not exactly once. -/
theorem boot_start_once_counterexample :
    (startServer (some "development") false).count ProcAction.jobStart = 0 ∧
    (startServer (some "development") false).count ProcAction.constructJob = 0 ∧
    (startServer (some "development") false) = [ProcAction.exitProc 1] ∧
    some "development" ≠ (some "test" : Option String) := by decide

/-- Claim C8 (amended): on a process boot in which the database
connectivity test succeeds, the job controller is constructed and start()
is called exactly once unless NODE_ENV is 'test', in which case the job is
never constructed; and on each termination signal (SIGTERM or SIGINT),
stop() is called on the constructed controller before the process exits. -/
theorem boot_constructs_and_signals_stop (nodeEnv : Option String)
    (c : Controller) :
    (nodeEnv ≠ some "test" →
       startServer nodeEnv true =
         [ProcAction.constructJob, ProcAction.jobStart, ProcAction.listen]) ∧
    (nodeEnv = some "test" → startServer nodeEnv true = [ProcAction.listen]) ∧
    signalHandler (some c) = [ProcAction.jobStop, ProcAction.exitProc 0] := by
  refine ⟨?_, ?_, rfl⟩
  · intro h
    simp [startServer, h]
  · intro h
    simp [startServer, h]

/-- Witness for the amended C8: a development boot constructs and starts
the job exactly once before listening, a test boot never constructs it, and
a signal with a constructed controller stops it before exiting. -/
theorem boot_constructs_and_signals_stop_witness :
    startServer (some "development") true =
      [ProcAction.constructJob, ProcAction.jobStart, ProcAction.listen] ∧
    startServer (some "test") true = [ProcAction.listen] ∧
    signalHandler (some Controller.init) =
      [ProcAction.jobStop, ProcAction.exitProc 0] :=
  ⟨(boot_constructs_and_signals_stop (some "development") Controller.init).1
      (by decide),
   (boot_constructs_and_signals_stop (some "test") Controller.init).2.1 rfl,
   (boot_constructs_and_signals_stop (some "test") Controller.init).2.2⟩

